import Mathlib

/-
Verification of the forward-mode AD engine in src/ufl/algorithms/forward_ad.py.

The engine operates on an immutable DAG of tensor-valued expression nodes.
We give a shallow embedding: expression nodes become an inductive type
carrying the data the AD rules inspect (shape, free indices, index-dimension
mapping for the node kinds that store them), and every differentiation rule
named by a claim becomes a Lean function translated line by line from the
source handler.  The expression node model itself (construction of nodes,
shape and free-index queries, the operator layer that builds Sum, Product,
Power and friends) is an external collaborator of the engine; where a rule
calls into it we either pass the answer of the node model as an explicit
argument (the Sig of a node) or build the node with a free constructor,
matching how the handler calls the class constructor or operator function.
Simplification of the produced expressions is explicitly out of scope for
the engine, so the constructors are free.
-/

namespace Ufl

/-- Symbolic index identity: two indices are equal only if the same identity.
Modelled as a natural number tag. -/
abbrev Idx := Nat

/-- Tensor shape: ordered sequence of positive dimensions. -/
abbrev Shape := List Nat

/-- Index-dimension mapping, an association list from Idx to dimension.
Models the Python dict returned by index_dimensions. -/
abbrev IdxDims := List (Idx × Nat)

/-- The comparison kinds EQ, NE, LE, GE, LT, GT that form binary conditions. -/
inductive CondKind where
  | ckEQ | ckNE | ckLE | ckGE | ckLT | ckGT
deriving DecidableEq

/-- Expression nodes, embedding the UFL node kinds that the claims touch.
Zero, IntValue and Terminal carry their signature data exactly as the
corresponding UFL classes cache it.  Composite constructors are free:
the engine never simplifies, it only builds nodes through the class
constructors and the operator layer. -/
inductive UExpr where
  | Zero (sh : Shape) (fi : List Idx) (idims : IdxDims)
  | IntValue (v : Int) (sh : Shape) (fi : List Idx) (idims : IdxDims)
  | FloatValue (num den : Int)
  | Identity (d : Nat)
  | Terminal (id : Nat) (sh : Shape) (fi : List Idx) (idims : IdxDims)
  | Coefficient (id : Nat) (sh : Shape)
  | Variable (label : Nat) (e : UExpr)
  | Indexed (A : UExpr) (jj : List Idx)
  | ComponentTensor (A : UExpr) (ii : List Idx)
  | IndexSum (A : UExpr) (i : Idx)
  | Sum (a b : UExpr)
  | Mult (a b : UExpr)
  | Division (a b : UExpr)
  | Power (a b : UExpr)
  | Ln (a : UExpr)
  | BesselJ (nu x : UExpr)
  | BesselY (nu x : UExpr)
  | BesselI (nu x : UExpr)
  | BesselK (nu x : UExpr)
  | Conditional (c t f : UExpr)
  | CondBin (k : CondKind) (a b : UExpr)
  | NotCondition (c : UExpr)
deriving DecidableEq

/-- The signature of a node as reported by the external node model:
the cached shape, free-index tuple and index-dimension mapping that the
handlers query through shape, free_indices and index_dimensions. -/
structure Sig where
  sh : Shape
  fi : List Idx
  idims : IdxDims
deriving DecidableEq

/-- Per-run differentiation-variable descriptor, the state set up by
ForwardAD.__init__ (forward_ad.py lines 63 to 76): spatial dimension,
extra shape, extra free indices and their dimensions. -/
structure ADContext where
  spatial_dim : Nat
  var_shape : Shape
  var_free_indices : List Idx
  var_index_dimensions : IdxDims

/-- Errors of the run.  The first six correspond to diagnosed fatal
conditions raised through error or ufl_assert in forward_ad.py; the last
two are undiagnosed Python exceptions escaping from the handlers. -/
inductive ADError where
  | indexScopeCollision
  | besselNuDerivative
  | scalarExpectedF
  | scalarExpectedG
  | divisionByZero
  | shapeMismatch
  | tupleUnpack
  | keyLookup
deriving DecidableEq

/-- Whether an error is a diagnosed condition, raised through the
diagnostic sink, as opposed to an uncaught Python exception. -/
def diagnosed : ADError → Bool
  | .tupleUnpack => false
  | .keyLookup => false
  | _ => true

/-- Dictionary lookup in an index-dimension mapping. -/
def lookupIdx : IdxDims → Idx → Option Nat
  | [], _ => none
  | p :: rest, i => if p.1 = i then some p.2 else lookupIdx rest i

/-- Membership test for a key of an index-dimension mapping; models the
Python test i in idims on a dict. -/
def hasIdx (idims : IdxDims) (i : Idx) : Bool :=
  (lookupIdx idims i).isSome

/-- Worker of unique_indices, mirroring the seen-set loop of
ufl.indexutils.unique_indices: keep the first occurrence of every index,
preserving order. -/
def uniqueIndicesGo : List Idx → List Idx → List Idx
  | [], _ => []
  | i :: rest, seen =>
      if i ∈ seen then uniqueIndicesGo rest seen
      else i :: uniqueIndicesGo rest (i :: seen)

/-- Modelled from the spec: ufl.indexutils.unique_indices (imported by
forward_ad.py but defined outside src), the utility to merge index tuples
without duplication, preserving first-occurrence order. -/
def unique_indices (l : List Idx) : List Idx :=
  uniqueIndicesGo l []

/-- A scalar IntValue with empty signature, as built by the operator
layer when a Python int meets an expression. -/
def intVal (v : Int) : UExpr :=
  .IntValue v [] [] []

/-- Negation at the operator layer: ScalarValue negation folds the sign
into the value, anything else multiplies by IntValue of minus one.
Modelled from the spec: the operator layer is an external collaborator. -/
def negE : UExpr → UExpr
  | .IntValue v sh fi idims => .IntValue (-v) sh fi idims
  | .FloatValue n d => .FloatValue (-n) d
  | e => .Mult (intVal (-1)) e

/-- Subtraction at the operator layer: a - b is a + (-b).
Modelled from the spec: the operator layer is an external collaborator. -/
def subE (a b : UExpr) : UExpr :=
  .Sum a (negE b)

/-- The Python float one half, as it appears in the Bessel recurrences. -/
def half : UExpr :=
  .FloatValue 1 2

/-- Structural test isinstance(e, Zero). -/
def isZero : UExpr → Bool
  | .Zero _ _ _ => true
  | _ => false

/-- isinstance(e, Zero) on an optional derivative: None is not a Zero. -/
def isZeroOpt : Option UExpr → Bool
  | some e => isZero e
  | none => false

/-- Shared index-extension block of _make_zero_diff (lines 146 to 151)
and _make_ones_diff (lines 165 to 170), which repeat the same code: when
the differentiation variable has free indices, unpack the single index
(a Python tuple unpacking that raises an uncaught ValueError when there
are two or more), and if it is not already a key of the index-dimension
mapping of the node, append it to the free indices through unique_indices
and record its dimension, looked up in the variable index dimensions
(an uncaught KeyError when absent). -/
def extendWithVarIndex (ctx : ADContext) (fi : List Idx) (idims : IdxDims) :
    Except ADError (List Idx × IdxDims) :=
  match ctx.var_free_indices with
  | [] => .ok (fi, idims)
  | [i] =>
      if hasIdx idims i then .ok (fi, idims)
      else
        match lookupIdx ctx.var_index_dimensions i with
        | some d => .ok (unique_indices (fi ++ [i]), idims ++ [(i, d)])
        | none => .error .keyLookup
  | _ :: _ :: _ => .error .tupleUnpack

/-- ForwardAD._make_zero_diff (lines 140 to 153): build a Zero whose shape
is the node shape extended by the variable extra shape and whose indices
are the node indices extended by the variable free index when present. -/
def make_zero_diff (ctx : ADContext) (osig : Sig) : Except ADError UExpr :=
  match extendWithVarIndex ctx osig.fi osig.idims with
  | .error e => .error e
  | .ok (fi, idims) => .ok (.Zero (osig.sh ++ ctx.var_shape) fi idims)

/-- ForwardAD.terminal (lines 201 to 207): terminals are independent of
the differentiation variable, lifted to the pair of the node and a
correctly signed Zero. -/
def terminal (ctx : ADContext) (o : UExpr) (osig : Sig) :
    Except ADError (UExpr × UExpr) :=
  match make_zero_diff ctx osig with
  | .error e => .error e
  | .ok fp => .ok (o, fp)

/-- Loop body of _make_ones_diff (lines 179 to 187): for every remaining
shape dimension take two fresh indices, index an Identity by them,
multiply onto the accumulator and record the index pair.  Fresh index
identities are drawn from the counter k. -/
def onesLoop : Shape → UExpr → List Idx → List Idx → Nat →
    UExpr × List Idx × List Idx
  | [], res, ind1, ind2, _ => (res, ind1, ind2)
  | d :: rest, res, ind1, ind2, k =>
      onesLoop rest (.Mult res (.Indexed (.Identity d) [k, k + 1]))
        (ind1 ++ [k]) (ind2 ++ [k + 1]) (k + 2)

/-- ForwardAD._make_ones_diff (lines 155 to 194): identity-structured
derivative used by the VariableAD self-derivative.  Asserts the node
shape equals the variable shape, extends indices like _make_zero_diff,
then builds either a scalar IntValue one or a ComponentTensor of a
product of indexed Identities, multiplied by the one when free indices
are present.  The parameter fresh seeds the fresh-index counter used by
the calls to indices(2). -/
def make_ones_diff (ctx : ADContext) (osig : Sig) (fresh : Nat) :
    Except ADError UExpr :=
  if osig.sh ≠ ctx.var_shape then .error .shapeMismatch
  else
    match extendWithVarIndex ctx osig.fi osig.idims with
    | .error e => .error e
    | .ok (fi, idims) =>
        let one := UExpr.IntValue 1 [] fi idims
        match osig.sh with
        | [] => .ok one
        | d :: rest =>
            let start := UExpr.Indexed (.Identity d) [fresh, fresh + 1]
            let r := onesLoop rest start [fresh] [fresh + 1] (fresh + 2)
            let fp := UExpr.ComponentTensor r.1 (r.2.1 ++ r.2.2)
            .ok (if fi.isEmpty then fp else .Mult fp one)

/-- Identity-keyed lookup in the per-run memo cache.  The spec fixes the
cache to be keyed on node identity, so keys are node identities. -/
def lookupC {R : Type} : List (Nat × R) → Nat → Option R
  | [], _ => none
  | p :: rest, o => if p.1 = o then some p.2 else lookupC rest o

/-- ForwardAD._cache_visit (lines 78 to 118): look the node up in the
per-run cache created in __init__ and return the cached pair on a hit;
on a miss evaluate the underlying per-kind rule once, store the result
and return it.  The rule dispatch performed by Transformer.visit is
outside src and abstracted as the function rule; the comparison block of
lines 92 to 113 is unreachable, because the function already returned at
line 87 whenever the cached value is not None.  The third component of
the result counts how many times the underlying rule was evaluated by
this call. -/
def cache_visit {R : Type} (rule : Nat → R) (cache : List (Nat × R)) (o : Nat) :
    R × List (Nat × R) × Nat :=
  match lookupC cache o with
  | some c => (c, cache, 0)
  | none =>
      let r := rule o
      (r, cache ++ [(o, r)], 1)

/-- ForwardAD.index_sum (lines 271 to 302): if the bound summation index
is among the free indices of the differentiation variable, raise the
fatal index-scope-collision diagnostic before visiting the summand;
otherwise visit the summand and wrap its derivative in an IndexSum over
the same index.  The recursive traversal is the parameter visit. -/
def index_sum (ctx : ADContext)
    (visit : UExpr → Except ADError (UExpr × UExpr))
    (A : UExpr) (i : Idx) : Except ADError (UExpr × UExpr) :=
  if ctx.var_free_indices ≠ [] ∧ i ∈ ctx.var_free_indices then
    .error .indexScopeCollision
  else
    match visit A with
    | .error e => .error e
    | .ok (A2, Ap) => .ok (.IndexSum A2 i, .IndexSum Ap i)

/-- Python test dummy is None or isinstance(dummy, Zero) applied to the
derivative component of the order operand of a Bessel function. -/
def nuDerivTrivial : Option UExpr → Bool
  | none => true
  | some e => isZero e

/-- Python comparison nu == 0 at the UFL value layer: a ScalarValue
compares equal to a Python scalar of the same value, anything else
compares unequal.  Modelled from the spec: value equality lives in the
external node model. -/
def scalarEqZero : UExpr → Bool
  | .IntValue v _ _ _ => v == 0
  | .FloatValue n _ => n == 0
  | .Zero _ _ _ => true
  | _ => false

/-- ForwardAD.bessel_j (lines 469 to 479): fatal error when the order
operand has a nontrivial derivative; order zero gives minus BesselJ of
order one, other orders give one half times the difference of the
neighbouring orders.  The derivative fp of the argument, bound by the
source as f, fp = x, is never used. -/
def bessel_j (nu : UExpr × Option UExpr) (x : UExpr × UExpr) :
    Except ADError (UExpr × UExpr) :=
  if !nuDerivTrivial nu.2 then .error .besselNuDerivative
  else
    let n := nu.1
    let f := x.1
    let o := UExpr.BesselJ n f
    let op :=
      if scalarEqZero n then negE (.BesselJ (intVal 1) f)
      else .Mult half (subE (.BesselJ (subE n (intVal 1)) f)
                            (.BesselJ (.Sum n (intVal 1)) f))
    .ok (o, op)

/-- ForwardAD.bessel_y (lines 481 to 491): same scheme as bessel_j with
BesselY; fp is never used. -/
def bessel_y (nu : UExpr × Option UExpr) (x : UExpr × UExpr) :
    Except ADError (UExpr × UExpr) :=
  if !nuDerivTrivial nu.2 then .error .besselNuDerivative
  else
    let n := nu.1
    let f := x.1
    let o := UExpr.BesselY n f
    let op :=
      if scalarEqZero n then negE (.BesselY (intVal 1) f)
      else .Mult half (subE (.BesselY (subE n (intVal 1)) f)
                            (.BesselY (.Sum n (intVal 1)) f))
    .ok (o, op)

/-- ForwardAD.bessel_i (lines 493 to 503): order zero gives BesselI of
order one, other orders one half times the sum of the neighbouring
orders; fp is never used. -/
def bessel_i (nu : UExpr × Option UExpr) (x : UExpr × UExpr) :
    Except ADError (UExpr × UExpr) :=
  if !nuDerivTrivial nu.2 then .error .besselNuDerivative
  else
    let n := nu.1
    let f := x.1
    let o := UExpr.BesselI n f
    let op :=
      if scalarEqZero n then .BesselI (intVal 1) f
      else .Mult half (.Sum (.BesselI (subE n (intVal 1)) f)
                            (.BesselI (.Sum n (intVal 1)) f))
    .ok (o, op)

/-- ForwardAD.bessel_k (lines 505 to 515): order zero gives minus BesselK
of order one, other orders minus one half times the sum of the
neighbouring orders; fp is never used. -/
def bessel_k (nu : UExpr × Option UExpr) (x : UExpr × UExpr) :
    Except ADError (UExpr × UExpr) :=
  if !nuDerivTrivial nu.2 then .error .besselNuDerivative
  else
    let n := nu.1
    let f := x.1
    let o := UExpr.BesselK n f
    let op :=
      if scalarEqZero n then negE (.BesselK (intVal 1) f)
      else .Mult (.FloatValue (-1) 2)
                 (.Sum (.BesselK (subE n (intVal 1)) f)
                       (.BesselK (.Sum n (intVal 1)) f))
    .ok (o, op)

/-- Modelled from the spec: ufl.constantvalue.is_true_ufl_scalar (outside
src): a true scalar has empty shape and no free indices.  The handlers
apply it to the answers of the node model, passed here as a Sig. -/
def is_true_ufl_scalar (s : Sig) : Bool :=
  s.sh.isEmpty && s.fi.isEmpty

/-- ForwardAD.power (lines 353 to 390): assert the base and the exponent
are true scalars, then return the pair of the primal rewritten as the
product of f with f to the g minus one, and the derivative built from
that same subexpression: its product with fp times g plus f times ln f
times gp.  The inputs a and b are the visited pairs for base and
exponent, fsig and gsig the signatures of their primals as reported by
the node model. -/
def power (a b : UExpr × UExpr) (fsig gsig : Sig) :
    Except ADError (UExpr × UExpr) :=
  if !is_true_ufl_scalar fsig then .error .scalarExpectedF
  else if !is_true_ufl_scalar gsig then .error .scalarExpectedG
  else
    let f := a.1
    let fp := a.2
    let g := b.1
    let gp := b.2
    let f_g_m1 := UExpr.Power f (subE g (intVal 1))
    let op := UExpr.Mult f_g_m1
      (.Sum (.Mult fp g) (.Mult (.Mult f (.Ln f)) gp))
    let o := UExpr.Mult f f_g_m1
    .ok (o, op)

/-- ForwardAD.ln (lines 421 to 425): assert the primal of the argument is
not a structural Zero (division by zero), then the derivative is fp
divided by f. -/
def ln (a : UExpr × UExpr) : Except ADError (UExpr × UExpr) :=
  let f := a.1
  let fp := a.2
  let o := UExpr.Ln f
  if isZero f then .error .divisionByZero
  else .ok (o, .Division fp f)

/-- ufl.common.subdict (outside src): restrict a dict to the given keys. -/
def subdict (idims : IdxDims) (keys : List Idx) : IdxDims :=
  keys.filterMap (fun k => (lookupIdx idims k).map (fun d => (k, d)))

/-- ForwardAD.conditional (lines 548 to 556): rebuild the node from the
primal of the condition and of the two branches; when both branch
derivatives are structural Zeros, return a Zero built from the shape and
free indices of the node itself (note: not extended by the variable
extra shape or index, unlike _make_zero_diff); otherwise return the
conditional of the condition primal and the branch derivatives.  The
derivative component of the condition pair is never consumed.  osig is
the signature of the rebuilt node as reported by the node model. -/
def conditional (osig : Sig) (c : UExpr × Option UExpr)
    (t f : UExpr × UExpr) : UExpr × UExpr :=
  let o := UExpr.Conditional c.1 t.1 f.1
  if isZero t.2 && isZero f.2 then
    (o, .Zero osig.sh osig.fi (subdict osig.idims osig.fi))
  else
    (o, .Conditional c.1 t.2 f.2)

/-- ForwardAD.binary_condition (lines 530 to 537): rebuild the condition
from the operand primals, warn when either operand derivative is not a
structural Zero, and return None as the derivative sentinel.  The second
component of the result counts emitted warnings. -/
def binary_condition (k : CondKind) (l r : UExpr × Option UExpr) :
    (UExpr × Option UExpr) × Nat :=
  let o := UExpr.CondBin k l.1 r.1
  let w := if !isZeroOpt l.2 || !isZeroOpt r.2 then 1 else 0
  ((o, none), w)

/-- ForwardAD.not_condition (lines 539 to 546): rebuild the negation from
the operand primal, warn when the operand derivative is not a structural
Zero, and return None as the derivative sentinel. -/
def not_condition (c : UExpr × Option UExpr) :
    (UExpr × Option UExpr) × Nat :=
  let o := UExpr.NotCondition c.1
  let w := if !isZeroOpt c.2 then 1 else 0
  ((o, none), w)

/-- A value of the caller-supplied partial-derivative table: either one
derivative expression or a tuple of them, one per direction. -/
inductive TabVal where
  | one (e : UExpr)
  | many (es : List UExpr)
deriving DecidableEq

/-- CoefficientAD.coefficient (lines 664 to 710).  First scan the pairs
of coefficients and directions of the differentiation variable and
return the matching direction.  Otherwise consult the partial-derivative
table: when the coefficient is absent, return the pair of the node and a
Zero of the shape of the coefficient, emitting a warning exactly when
the table is nonempty (the source guards the warning by the truthiness
of the table dict); when present, the contraction of the stored
derivatives against the directions, lines 684 to 703, is abstracted as
the parameter hit, which no claim exercises.  The second component of
the ok result counts emitted warnings. -/
def coefficient (wv : List (UExpr × UExpr)) (cd : List (UExpr × TabVal))
    (hit : TabVal → Except ADError UExpr)
    (o : UExpr) (osh : Shape) : Except ADError ((UExpr × UExpr) × Nat) :=
  match wv.find? (fun p => p.1 == o) with
  | some wvp => .ok ((wvp.1, wvp.2), 0)
  | none =>
      match cd.find? (fun p => p.1 == o) with
      | none => .ok ((o, .Zero osh [] []), if cd.isEmpty then 0 else 1)
      | some entry =>
          match hit entry.2 with
          | .error e => .error e
          | .ok op => .ok ((o, op), 0)

/-- The seen-set loop of unique_indices is the identity on a
duplicate-free list whose members are not yet seen. -/
theorem uniqueIndicesGo_eq_self (l : List Idx) : ∀ seen : List Idx,
    l.Nodup → (∀ x ∈ l, x ∉ seen) → uniqueIndicesGo l seen = l := by
  induction l with
  | nil => intro seen _ _; rfl
  | cons a rest ih =>
      intro seen h h2
      have ha : a ∉ seen := h2 a (List.mem_cons_self a rest)
      have hn := List.nodup_cons.mp h
      rw [uniqueIndicesGo, if_neg ha]
      refine congrArg (a :: ·) (ih (a :: seen) hn.2 ?_)
      intro x hx hmem
      rcases List.mem_cons.mp hmem with h1 | h2x
      · exact hn.1 (h1 ▸ hx)
      · exact h2 x (List.mem_cons_of_mem a hx) h2x

/-- unique_indices is the identity on a duplicate-free list. -/
theorem unique_indices_eq_self (l : List Idx) (h : l.Nodup) :
    unique_indices l = l :=
  uniqueIndicesGo_eq_self l [] h (fun x _ => List.not_mem_nil x)

/-- Appending a fresh entry to the cache makes it found by lookupC. -/
theorem lookupC_append_self {R : Type} (cache : List (Nat × R)) (o : Nat)
    (r : R) : lookupC cache o = none → lookupC (cache ++ [(o, r)]) o = some r := by
  induction cache with
  | nil => intro _; simp [lookupC]
  | cons p rest ih =>
      intro h
      by_cases hp : p.1 = o
      · rw [lookupC, if_pos hp] at h; cases h
      · rw [lookupC, if_neg hp] at h
        rw [List.cons_append, lookupC, if_neg hp]
        exact ih h

/-- C1 (amended): for every terminal node, the derivative returned by the
terminal rule is a Zero whose shape is the node shape extended by the
variable extra shape, whose free indices are the node free indices
extended by the variable extra index when that index is not already
present in the index-dimension mapping, and whose index-dimension
mapping is the node mapping extended by the dimension of that index.
The three conjuncts cover the variable having no free index, the index
already present, and the index genuinely new. -/
theorem C1_terminal_signature (ctx : ADContext) (o : UExpr) (sh : Shape)
    (fi : List Idx) (idims : IdxDims) :
    (ctx.var_free_indices = [] →
        terminal ctx o ⟨sh, fi, idims⟩
          = .ok (o, .Zero (sh ++ ctx.var_shape) fi idims)) ∧
    (∀ i, ctx.var_free_indices = [i] → hasIdx idims i = true →
        terminal ctx o ⟨sh, fi, idims⟩
          = .ok (o, .Zero (sh ++ ctx.var_shape) fi idims)) ∧
    (∀ i d, ctx.var_free_indices = [i] → hasIdx idims i = false →
        lookupIdx ctx.var_index_dimensions i = some d →
        (fi ++ [i]).Nodup →
        terminal ctx o ⟨sh, fi, idims⟩
          = .ok (o, .Zero (sh ++ ctx.var_shape) (fi ++ [i])
                   (idims ++ [(i, d)]))) := by
  refine ⟨?_, ?_, ?_⟩
  · intro h
    simp [terminal, make_zero_diff, extendWithVarIndex, h]
  · intro i h hi
    simp [terminal, make_zero_diff, extendWithVarIndex, h, hi]
  · intro i d h hi hd hnd
    simp [terminal, make_zero_diff, extendWithVarIndex, h, hi, hd,
      unique_indices_eq_self _ hnd]

/-- C1 witness: the three conjuncts of C1_terminal_signature applied at
concrete inputs: a variable of extra shape, a variable index already in
the node mapping, and a genuinely new variable index. -/
theorem C1_terminal_signature_witness :
    terminal ⟨2, [3], [], []⟩ (UExpr.Terminal 0 [] [] []) ⟨[], [], []⟩
      = .ok (UExpr.Terminal 0 [] [] [], .Zero [3] [] []) ∧
    terminal ⟨2, [], [7], [(7, 2)]⟩ (UExpr.Terminal 0 [] [] [])
        ⟨[], [5], [(5, 3), (7, 2)]⟩
      = .ok (UExpr.Terminal 0 [] [] [], .Zero [] [5] [(5, 3), (7, 2)]) ∧
    terminal ⟨2, [], [7], [(7, 2)]⟩ (UExpr.Terminal 0 [] [] [])
        ⟨[], [5], [(5, 3)]⟩
      = .ok (UExpr.Terminal 0 [] [] [], .Zero [] [5, 7] [(5, 3), (7, 2)]) := by
  refine ⟨?_, ?_, ?_⟩
  · exact (C1_terminal_signature _ _ _ _ _).1 rfl
  · exact (C1_terminal_signature _ _ _ _ _).2.1 7 rfl (by decide)
  · exact (C1_terminal_signature _ _ _ _ _).2.2 7 2 rfl (by decide)
      (by decide) (by decide)

/-- C1 counterexample: the claim asserts the invariant for every node,
but the conditional rule violates it.  Under a differentiation variable
of extra shape (3,) a scalar Conditional whose two branch derivatives
are structural Zeros gets the derivative Zero of shape (), while the
invariant, as realised by _make_zero_diff on the same signature,
requires shape (3,). -/
theorem C1_conditional_drops_var_shape :
    (conditional ⟨[], [], []⟩
        (UExpr.CondBin .ckLT (intVal 0) (intVal 1), none)
        (UExpr.Terminal 1 [] [] [], UExpr.Zero [3] [] [])
        (UExpr.Terminal 2 [] [] [], UExpr.Zero [3] [] [])).2
      = UExpr.Zero [] [] [] ∧
    make_zero_diff ⟨2, [3], [], []⟩ ⟨[], [], []⟩
      = .ok (UExpr.Zero [3] [] []) ∧
    UExpr.Zero [] [] [] ≠ UExpr.Zero [3] [] [] := by
  refine ⟨rfl, rfl, by decide⟩

/-- C2: within one run the caching visit is memoized on node identity:
on a miss the underlying rule is evaluated exactly once and the result
stored; a second visit of the same node returns the identical cached
result without evaluating the rule again and leaves the cache
unchanged. -/
theorem C2_cache_visit_memoized {R : Type} (rule : Nat → R)
    (cache : List (Nat × R)) (o : Nat) (h : lookupC cache o = none) :
    cache_visit rule cache o = (rule o, cache ++ [(o, rule o)], 1) ∧
    lookupC (cache ++ [(o, rule o)]) o = some (rule o) ∧
    cache_visit rule (cache ++ [(o, rule o)]) o
      = (rule o, cache ++ [(o, rule o)], 0) := by
  have hl := lookupC_append_self cache o (rule o) h
  refine ⟨?_, hl, ?_⟩
  · simp [cache_visit, h]
  · simp [cache_visit, hl]

/-- C2 witness: a two-call run on one node: the first call evaluates the
rule once and stores the result, the second returns the cached result
with no further evaluation. -/
theorem C2_cache_visit_memoized_witness :
    cache_visit (fun n => n + 1) ([] : List (Nat × Nat)) 5 = (6, [(5, 6)], 1) ∧
    cache_visit (fun n => n + 1) [(5, 6)] 5 = (6, [(5, 6)], 0) := by
  have h := C2_cache_visit_memoized (fun n => n + 1) [] 5 rfl
  exact ⟨h.1, h.2.2⟩

/-- C3: visiting an index sum whose bound index is among the free
indices of the differentiation variable raises the fatal
index-scope-collision error regardless of the traversal, hence before
any child is differentiated; when the bound index is not among them, the
derivative is the index sum of the summand derivative over the same
index. -/
theorem C3_index_sum_rule (ctx : ADContext)
    (visit : UExpr → Except ADError (UExpr × UExpr)) (A : UExpr) (i : Idx) :
    (i ∈ ctx.var_free_indices →
        index_sum ctx visit A i = .error .indexScopeCollision) ∧
    (i ∉ ctx.var_free_indices → ∀ A2 Ap, visit A = .ok (A2, Ap) →
        index_sum ctx visit A i = .ok (.IndexSum A2 i, .IndexSum Ap i)) := by
  constructor
  · intro hmem
    have hne : ctx.var_free_indices ≠ [] := List.ne_nil_of_mem hmem
    simp [index_sum, hne, hmem]
  · intro hnot A2 Ap hv
    have hcond : ¬(ctx.var_free_indices ≠ [] ∧ i ∈ ctx.var_free_indices) :=
      fun hc => hnot hc.2
    simp [index_sum, hcond, hv]

/-- C3 witness: a run whose variable carries the free index four: the
sum bound to four collides fatally, the sum bound to nine differentiates
through. -/
theorem C3_index_sum_rule_witness :
    index_sum ⟨2, [], [4], [(4, 2)]⟩ (fun e => .ok (e, intVal 0))
        (UExpr.Terminal 0 [] [] []) 4
      = .error .indexScopeCollision ∧
    index_sum ⟨2, [], [4], [(4, 2)]⟩ (fun e => .ok (e, intVal 0))
        (UExpr.Terminal 0 [] [] []) 9
      = .ok (.IndexSum (UExpr.Terminal 0 [] [] []) 9,
             .IndexSum (intVal 0) 9) := by
  constructor
  · exact (C3_index_sum_rule _ _ _ _).1 (by decide)
  · exact (C3_index_sum_rule _ _ _ _).2 (by decide) _ _ rfl

/-- C4: evaluation of the Bessel rules at concrete inputs.  The claim
says the recurrence result is scaled by the chain-rule factor fp, the
derivative of the argument.  At order zero with argument derivative
fp equal to two, bessel_j returns minus BesselJ of order one with no
occurrence of fp, differing from the fp-scaled expression in either
operand order; the nontrivial-order-derivative branch of bessel_k is the
claimed fatal error. -/
theorem C4_bessel_rules_ignore_fp :
    bessel_j (intVal 0, some (UExpr.Zero [] [] []))
        (UExpr.Terminal 1 [] [] [], intVal 2)
      = .ok (UExpr.BesselJ (intVal 0) (UExpr.Terminal 1 [] [] []),
             negE (UExpr.BesselJ (intVal 1) (UExpr.Terminal 1 [] [] []))) ∧
    negE (UExpr.BesselJ (intVal 1) (UExpr.Terminal 1 [] [] []))
      ≠ UExpr.Mult (intVal 2)
          (negE (UExpr.BesselJ (intVal 1) (UExpr.Terminal 1 [] [] []))) ∧
    negE (UExpr.BesselJ (intVal 1) (UExpr.Terminal 1 [] [] []))
      ≠ UExpr.Mult
          (negE (UExpr.BesselJ (intVal 1) (UExpr.Terminal 1 [] [] [])))
          (intVal 2) ∧
    bessel_k (intVal 0, some (UExpr.Zero [] [] []))
        (UExpr.Terminal 1 [] [] [], intVal 2)
      = .ok (UExpr.BesselK (intVal 0) (UExpr.Terminal 1 [] [] []),
             negE (UExpr.BesselK (intVal 1) (UExpr.Terminal 1 [] [] []))) ∧
    bessel_k (intVal 0, some (intVal 3)) (UExpr.Terminal 1 [] [] [], intVal 2)
      = .error .besselNuDerivative := by
  refine ⟨rfl, by decide, by decide, rfl, rfl⟩

/-- C5: visiting a power node asserts fatally unless both the base and
the exponent are true scalars; when both are scalar the derivative is
the power of f to the g minus one times the sum of fp times g and f
times ln f times gp, and the primal is rewritten as f times that same
power subexpression, which is shared between the two components. -/
theorem C5_power_rule (a b : UExpr × UExpr) (fsig gsig : Sig) :
    (is_true_ufl_scalar fsig = false →
        power a b fsig gsig = .error .scalarExpectedF) ∧
    (is_true_ufl_scalar fsig = true → is_true_ufl_scalar gsig = false →
        power a b fsig gsig = .error .scalarExpectedG) ∧
    (is_true_ufl_scalar fsig = true → is_true_ufl_scalar gsig = true →
        power a b fsig gsig
          = .ok (.Mult a.1 (.Power a.1 (subE b.1 (intVal 1))),
                 .Mult (.Power a.1 (subE b.1 (intVal 1)))
                   (.Sum (.Mult a.2 b.1)
                         (.Mult (.Mult a.1 (.Ln a.1)) b.2)))) := by
  refine ⟨?_, ?_, ?_⟩
  · intro hf; simp [power, hf]
  · intro hf hg; simp [power, hf, hg]
  · intro hf hg; simp [power, hf, hg]

/-- C5 witness: the three conjuncts of C5_power_rule applied at concrete
inputs: a vector base, a vector exponent, and a genuine scalar power. -/
theorem C5_power_rule_witness :
    power (UExpr.Terminal 1 [2] [] [], intVal 3)
        (UExpr.Terminal 2 [] [] [], intVal 4) ⟨[2], [], []⟩ ⟨[], [], []⟩
      = .error .scalarExpectedF ∧
    power (UExpr.Terminal 1 [] [] [], intVal 3)
        (UExpr.Terminal 2 [2] [] [], intVal 4) ⟨[], [], []⟩ ⟨[2], [], []⟩
      = .error .scalarExpectedG ∧
    power (UExpr.Terminal 1 [] [] [], intVal 3)
        (UExpr.Terminal 2 [] [] [], intVal 4) ⟨[], [], []⟩ ⟨[], [], []⟩
      = .ok (.Mult (UExpr.Terminal 1 [] [] [])
               (.Power (UExpr.Terminal 1 [] [] [])
                 (subE (UExpr.Terminal 2 [] [] []) (intVal 1))),
             .Mult (.Power (UExpr.Terminal 1 [] [] [])
                 (subE (UExpr.Terminal 2 [] [] []) (intVal 1)))
               (.Sum (.Mult (intVal 3) (UExpr.Terminal 2 [] [] []))
                     (.Mult (.Mult (UExpr.Terminal 1 [] [] [])
                         (.Ln (UExpr.Terminal 1 [] [] []))) (intVal 4)))) := by
  refine ⟨?_, ?_, ?_⟩
  · exact (C5_power_rule _ _ _ _).1 rfl
  · exact (C5_power_rule _ _ _ _).2.1 rfl rfl
  · exact (C5_power_rule _ _ _ _).2.2 rfl rfl

/-- C6: evaluation of the conditional rule at a concrete input.  Under a
spatial differentiation variable carrying the symbolic free index seven
of dimension two, a scalar Conditional whose two branch derivatives are
structural Zeros gets the derivative Zero with no free indices, while
the claim requires the correctly signed Zero to carry the free indices
of the node extended by the variable index, as _make_zero_diff realises
on the same signature. -/
theorem C6_conditional_drops_var_index :
    (conditional ⟨[], [], []⟩
        (UExpr.CondBin .ckLT (intVal 0) (intVal 1), none)
        (UExpr.Terminal 1 [] [] [], UExpr.Zero [] [7] [(7, 2)])
        (UExpr.Terminal 2 [] [] [], UExpr.Zero [] [7] [(7, 2)])).2
      = UExpr.Zero [] [] [] ∧
    make_zero_diff ⟨2, [], [7], [(7, 2)]⟩ ⟨[], [], []⟩
      = .ok (UExpr.Zero [] [7] [(7, 2)]) ∧
    UExpr.Zero [] [] [] ≠ UExpr.Zero [] [7] [(7, 2)] := by
  refine ⟨rfl, rfl, by decide⟩

/-- C7 counterexample: a coefficient absent from an empty
partial-derivative table.  The rule returns the Zero of the coefficient
shape but emits no warning at all, because the source guards the warning
by the truthiness of the table dict; the claim requires exactly one
warning to be emitted. -/
theorem C7_empty_table_no_warning :
    coefficient [] [] (fun _ => .ok (intVal 0)) (UExpr.Coefficient 0 [2]) [2]
      = .ok ((UExpr.Coefficient 0 [2], UExpr.Zero [2] [] []), 0) ∧
    (0 : Nat) ≠ 1 := by
  exact ⟨rfl, by decide⟩

/-- C7 (amended): for a coefficient that is not among the coefficients
of the differentiation variable and is absent from the supplied
partial-derivative table, the rule returns, without any fatal error, the
Zero of the coefficient shape together with exactly one warning when the
table is nonempty and no warning when the table is empty. -/
theorem C7_missing_coefficient_zero (wv : List (UExpr × UExpr))
    (cd : List (UExpr × TabVal)) (hit : TabVal → Except ADError UExpr)
    (o : UExpr) (osh : Shape)
    (h1 : wv.find? (fun p => p.1 == o) = none)
    (h2 : cd.find? (fun p => p.1 == o) = none) :
    coefficient wv cd hit o osh
      = .ok ((o, UExpr.Zero osh [] []), if cd.isEmpty then 0 else 1) := by
  simp only [coefficient, h1, h2]

/-- C7 witness: a nonempty table missing the visited coefficient: the
Zero of the coefficient shape is returned with exactly one warning. -/
theorem C7_missing_coefficient_zero_witness :
    coefficient [] [(UExpr.Coefficient 1 [], TabVal.one (intVal 0))]
        (fun _ => .ok (intVal 0)) (UExpr.Coefficient 0 [2]) [2]
      = .ok ((UExpr.Coefficient 0 [2], UExpr.Zero [2] [] []), 1) := by
  exact C7_missing_coefficient_zero _ _ _ _ _ rfl (by decide)

/-- C8: the ln rule asserts fatally, with the division-by-zero
diagnostic, when the primal of the argument is a structural Zero, and
otherwise returns the derivative fp divided by f. -/
theorem C8_ln_rule (a : UExpr × UExpr) :
    (isZero a.1 = true → ln a = .error .divisionByZero) ∧
    (isZero a.1 = false → ln a = .ok (.Ln a.1, .Division a.2 a.1)) := by
  constructor
  · intro h; simp [ln, h]
  · intro h; simp [ln, h]

/-- C8 witness: ln of a structural Zero fails fatally and ln of a
non-Zero terminal produces the quotient derivative. -/
theorem C8_ln_rule_witness :
    ln (UExpr.Zero [] [] [], intVal 1) = .error .divisionByZero ∧
    ln (UExpr.Terminal 3 [] [] [], intVal 5)
      = .ok (.Ln (UExpr.Terminal 3 [] [] []),
             .Division (intVal 5) (UExpr.Terminal 3 [] [] [])) := by
  constructor
  · exact (C8_ln_rule _).1 rfl
  · exact (C8_ln_rule _).2 rfl

/-- C9: when the differentiation variable carries two or more free
indices, the zero-derivative builder, the ones-derivative builder under
its shape precondition, and hence the terminal rule, all fail with the
uncaught tuple-unpacking exception, which is not a diagnosed error. -/
theorem C9_two_var_indices_unpack (ctx : ADContext) (osig : Sig)
    (o : UExpr) (fresh : Nat) (h : 2 ≤ ctx.var_free_indices.length) :
    make_zero_diff ctx osig = .error .tupleUnpack ∧
    (osig.sh = ctx.var_shape →
        make_ones_diff ctx osig fresh = .error .tupleUnpack) ∧
    terminal ctx o osig = .error .tupleUnpack ∧
    diagnosed ADError.tupleUnpack = false := by
  rcases hvfi : ctx.var_free_indices with _ | ⟨a, _ | ⟨b, rest⟩⟩
  · rw [hvfi] at h; simp at h
  · rw [hvfi] at h; simp at h
  · refine ⟨?_, ?_, ?_, rfl⟩
    · simp [make_zero_diff, extendWithVarIndex, hvfi]
    · intro hsh
      simp [make_ones_diff, extendWithVarIndex, hvfi, hsh]
    · simp [terminal, make_zero_diff, extendWithVarIndex, hvfi]

/-- C9 witness: a variable with the two free indices one and two: both
builders and the terminal rule fail with the undiagnosed
tuple-unpacking exception. -/
theorem C9_two_var_indices_unpack_witness :
    make_zero_diff ⟨2, [], [1, 2], []⟩ ⟨[], [], []⟩ = .error .tupleUnpack ∧
    make_ones_diff ⟨2, [], [1, 2], []⟩ ⟨[], [], []⟩ 0 = .error .tupleUnpack ∧
    terminal ⟨2, [], [1, 2], []⟩ (UExpr.Terminal 0 [] [] []) ⟨[], [], []⟩
      = .error .tupleUnpack ∧
    diagnosed ADError.tupleUnpack = false := by
  have h := C9_two_var_indices_unpack ⟨2, [], [1, 2], []⟩ ⟨[], [], []⟩
    (UExpr.Terminal 0 [] [] []) 0 (by decide)
  exact ⟨h.1, h.2.1 rfl, h.2.2.1, h.2.2.2⟩

/-- C10: the comparison and negation condition rules return None as the
derivative component of their result pair, and the conditional rule
consumes only the primal component of its condition operand: its result
is invariant under any change of the derivative component of the
condition pair, so the None sentinel is never dereferenced on the path
through a Conditional. -/
theorem C10_condition_none_never_used (k : CondKind)
    (l r c : UExpr × Option UExpr) (osig : Sig) (c1 : UExpr)
    (d d2 : Option UExpr) (t f : UExpr × UExpr) :
    (binary_condition k l r).1.2 = none ∧
    (not_condition c).1.2 = none ∧
    conditional osig (c1, d) t f = conditional osig (c1, d2) t f := by
  exact ⟨rfl, rfl, rfl⟩

end Ufl
